import Mathlib

/-!
Verification of the T2F-Pharm pipeline core
(`opencadd/pipelines/t2fpharm.py`): vacancy classification from energy
grids and buriedness analysis from PSP-event counts.

The embedding models energies as rationals, numpy arrays as a shape
together with a row-major flat data list, and Python exceptions as an
`Except` error value.  Methods that mutate `self` are modelled as
state-passing functions on `T2FState`.
-/

deriving instance DecidableEq for Except

set_option allowUnsafeReducibility true
attribute [semireducible] Rat.add Rat.mul Rat.div Rat.sub Rat.neg Rat.inv Rat.blt Rat.ofScientific

namespace T2F

/-- Energy values (floats in the source) are modelled as rationals. -/
abbrev Val := ℚ

/-- A numpy ndarray: a shape and a row-major flat data list.
A well-formed array has `data.length = shape.prod`. -/
structure NDArr (α : Type) where
  shape : List Nat
  data : List α
deriving Repr, DecidableEq

/-- The energy grid produced by `routine_run_autogrid`: a 4-D array of
shape `(nx, ny, nz, C)`, stored here as one channel-vector per lattice
point (row-major over the `nx * ny * nz` spatial points), together with
the channel names `self._type_energy_grids` (probe types followed by
"e" and "d"). -/
structure EnergyGrid where
  nx : Nat
  ny : Nat
  nz : Nat
  channels : List String
  cells : List (List Val)
deriving Repr, DecidableEq

/-- Well-formedness of the energy grid: one cell per lattice point and
one value per channel in every cell. -/
def EnergyGrid.WF (g : EnergyGrid) : Prop :=
  g.cells.length = g.nx * g.ny * g.nz ∧ ∀ c ∈ g.cells, c.length = g.channels.length

/-- The mutable state of a `T2FPharm` object.  After `__init__` the
attributes `_grid_vacancy` and `_grid_buriedness` are not set, which is
modelled by `none`. -/
structure T2FState where
  grid : EnergyGrid
  spacing_grid_points : Val
  grid_vacancy : Option (NDArr Bool) := none
  grid_buriedness : Option (NDArr Bool) := none
deriving Repr, DecidableEq

/-- The state right after `T2FPharm.__init__`: the energy grid and the
spacing are set, no vacancy or buriedness grid exists yet. -/
def initState (g : EnergyGrid) (spacing : Val) : T2FState :=
  { grid := g, spacing_grid_points := spacing }

/-- Python exceptions raised by the pipeline: `ValueError msg` and the
`AttributeError` raised when reading a never-assigned attribute. -/
inductive PyError where
  | valueError : String → PyError
  | attributeError : String → PyError
deriving Repr, DecidableEq

/-- Reduction `np.max` along the channel axis of one cell (the source only applies
it to non-empty selections). -/
def npMax : List Val → Val
  | [] => 0
  | x :: xs => xs.foldl max x

/-- Reduction `np.min` along the channel axis of one cell. -/
def npMin : List Val → Val
  | [] => 0
  | x :: xs => xs.foldl min x

/-- Reduction `np.sum` along the channel axis of one cell. -/
def npSum (l : List Val) : Val := l.sum

/-- Reduction `np.mean` along the channel axis of one cell. -/
def npMean (l : List Val) : Val := l.sum / (l.length : Val)

/-- The keys of the dict `reducing_op` in
`calculate_vacancy_from_energy` (note the token is "avg", not "mean"). -/
def recognizedModes : List String := ["max", "min", "avg", "sum"]

/-- The dict lookup `reducing_op[mode]`, defined on recognized modes
(the source raises before this lookup for any other mode). -/
def reducing_op (mode : String) : List Val → Val :=
  if mode = "max" then npMax
  else if mode = "min" then npMin
  else if mode = "avg" then npMean
  else npSum

/-- Selection `self._grid[..., np.isin(self._type_energy_grids, energy_refs)]`
applied to one cell: keep, in grid order, the values of the channels
whose name occurs in `energy_refs`. -/
def selectChannels (channels refs : List String) (cell : List Val) : List Val :=
  ((channels.zip cell).filter (fun p => decide (p.1 ∈ refs))).map Prod.snd

/-- The number of selected channels, `subgrid_ref.shape[-1]`. -/
def maskCount (channels refs : List String) : Nat :=
  (channels.filter (fun c => decide (c ∈ refs))).length

/-- Computation `energy_refs[np.isin(energy_refs, self._type_energy_grids, invert=True)]`:
the requested names that have no energy grid, in request order. -/
def invalidRefs (g : EnergyGrid) (refs : List String) : List String :=
  refs.filter (fun r => decide (r ∉ g.channels))

/-- The message of the `ValueError` raised for unknown energy references;
it renders the whole list of offending names. -/
def unknownChannelMessage (names : List String) : String :=
  "The following energy grids were not calculated: " ++ String.intercalate " " names

/-- The flat data of `energy_vals` in `calculate_vacancy_from_energy`:
if exactly one channel is selected the subgrid is taken as is (keeping
its trailing axis of length 1), otherwise the selection is reduced with
`reducing_op[mode]` along the channel axis. -/
def vacancyVals (g : EnergyGrid) (refs : List String) (mode : String) : List Val :=
  if maskCount g.channels refs = 1 then
    (g.cells.map (selectChannels g.channels refs)).map (fun c => c.headD 0)
  else
    (g.cells.map (selectChannels g.channels refs)).map (reducing_op mode)

/-- The shape of `energy_vals` (hence of `self._grid_vacancy`): the
single-selected-channel branch keeps the 4-D shape `(nx, ny, nz, 1)`;
the reduction branch removes the channel axis, giving `(nx, ny, nz)`. -/
def vacancyShape (g : EnergyGrid) (refs : List String) : List Nat :=
  if maskCount g.channels refs = 1 then [g.nx, g.ny, g.nz, 1]
  else [g.nx, g.ny, g.nz]

/-- Assignment `self._grid_vacancy = energy_vals < energy_cutoff` on the happy path. -/
def vacancyResult (g : EnergyGrid) (refs : List String) (cutoff : Val) (mode : String) :
    NDArr Bool :=
  ⟨vacancyShape g refs, (vacancyVals g refs mode).map (fun v => decide (v < cutoff))⟩

/-- Model of `T2FPharm.calculate_vacancy_from_energy`.  `energy_refs` is passed as
a Python sequence (the `isinstance(energy_refs, Sequence)` branch), so
`mode` is validated first; then the reference names are validated; on
success the vacancy grid is stored and a copy is returned iff
`return_copy`. -/
def calculate_vacancy_from_energy (s : T2FState) (energy_refs : List String)
    (energy_cutoff : Val) (mode : String) (return_copy : Bool) :
    Except PyError (T2FState × Option (NDArr Bool)) :=
  if mode ∈ recognizedModes then
    if invalidRefs s.grid energy_refs = [] then
      let vac := vacancyResult s.grid energy_refs energy_cutoff mode
      Except.ok ({ s with grid_vacancy := some vac },
                 if return_copy then some vac else none)
    else
      Except.error (PyError.valueError (unknownChannelMessage (invalidRefs s.grid energy_refs)))
  else
    Except.error (PyError.valueError "Input argument mode not recognized")

/-- Row-major flat index of the lattice point `(i, j, k)`. -/
def flatIndex (ny nz i j k : Nat) : Nat := (i * ny + j) * nz + k

/-- Whether an integer lattice coordinate lies inside the grid bounds. -/
def inBounds (nx ny nz : Nat) (i j k : Int) : Bool :=
  decide (0 ≤ i) && decide (i < (nx : Int)) &&
  decide (0 ≤ j) && decide (j < (ny : Int)) &&
  decide (0 ≤ k) && decide (k < (nz : Int))

/-- Read the vacancy tensor at in-bounds integer coordinates. -/
def vacAt (vac : NDArr Bool) (ny nz : Nat) (i j k : Int) : Bool :=
  vac.data.getD (flatIndex ny nz i.toNat j.toNat k.toNat) false

/-- Modelled from the spec: one ray march of the buriedness algorithm
(spec section 4.4, step 2).  Starting from `(i, j, k)`, step along the
direction `(di, dj, dk)` up to the given number of remaining steps; the
march reports a hit at the first visited point that is within grid
bounds and not vacant, stops without a hit when it leaves the grid or
exhausts the step limit, and is not blocked by intervening vacant
cells. -/
def marchHit (vac : NDArr Bool) (nx ny nz : Nat) (i j k di dj dk : Int) :
    Nat → Bool
  | 0 => false
  | fuel + 1 =>
    let i2 := i + di
    let j2 := j + dj
    let k2 := k + dk
    if inBounds nx ny nz i2 j2 k2 then
      if vacAt vac ny nz i2 j2 k2 then
        marchHit vac nx ny nz i2 j2 k2 di dj dk fuel
      else true
    else false

/-- Modelled from the spec: the direction sets of spec section 4.3 —
3 axis vectors, 7 adds the four 3D diagonals, 13 adds the six 2D
diagonals; each listed vector is implicitly tested in both senses. -/
def direction_set : Nat → List (Int × Int × Int)
  | 3 => [(1, 0, 0), (0, 1, 0), (0, 0, 1)]
  | 7 => [(1, 0, 0), (0, 1, 0), (0, 0, 1),
          (1, 1, 1), (1, 1, -1), (1, -1, 1), (1, -1, -1)]
  | 13 => [(1, 0, 0), (0, 1, 0), (0, 0, 1),
           (1, 1, 1), (1, 1, -1), (1, -1, 1), (1, -1, -1),
           (1, 1, 0), (1, -1, 0), (1, 0, 1), (1, 0, -1), (0, 1, 1), (0, 1, -1)]
  | _ => []

/-- Modelled from the spec: a PSP event for one direction (spec section
4.4, step 2c) occurs iff the march finds a hit in both the positive and
the negative sense of the direction, each within `L` steps. -/
def pspEvent (vac : NDArr Bool) (nx ny nz : Nat) (i j k : Int)
    (d : Int × Int × Int) (L : Nat) : Bool :=
  marchHit vac nx ny nz i j k d.1 d.2.1 d.2.2 L &&
  marchHit vac nx ny nz i j k (-d.1) (-d.2.1) (-d.2.2) L

/-- Modelled from the spec:
`opencadd.bindingsite.utils.count_psp_events_from_vacancy_tensor` is
imported by the pipeline but its source file is not part of this
snapshot, so it is modelled from spec section 4.4: the step limit is
`L = floor(psp_len_max / spacing)`, and for every lattice point the
number of directions of the requested set that register a PSP event is
counted, yielding a count volume with the spatial shape of the vacancy
tensor. -/
def count_psp_events_from_vacancy_tensor (grid_vacancy : NDArr Bool)
    (spacing_grid_points : Val) (num_directions : Nat) (psp_len_max : Val) :
    NDArr Nat :=
  let nx := grid_vacancy.shape.getD 0 0
  let ny := grid_vacancy.shape.getD 1 0
  let nz := grid_vacancy.shape.getD 2 0
  let L := ((psp_len_max / spacing_grid_points).floor).toNat
  let dirs := direction_set num_directions
  ⟨[nx, ny, nz],
   (List.range (nx * ny * nz)).map (fun t =>
     let i := t / (ny * nz)
     let j := (t % (ny * nz)) / nz
     let k := t % nz
     dirs.countP (fun d => pspEvent grid_vacancy nx ny nz (i : Int) (j : Int) (k : Int) d L))⟩

/-- Model of `T2FPharm.calculate_buriedness_from_psp_count`.  Reading
`self._grid_vacancy` before any vacancy classification raises
`AttributeError` (the attribute is never assigned in `__init__`);
otherwise the PSP counts are thresholded with
`grid_psp_counts >= psp_count_min`, the result is stored, and a copy is
returned iff `return_copy`. -/
def calculate_buriedness_from_psp_count (s : T2FState) (num_directions : Nat)
    (psp_len_max : Val) (psp_count_min : Int) (return_copy : Bool) :
    Except PyError (T2FState × Option (NDArr Bool)) :=
  match s.grid_vacancy with
  | none => Except.error (PyError.attributeError "_grid_vacancy")
  | some vac =>
    let counts := count_psp_events_from_vacancy_tensor vac s.spacing_grid_points
      num_directions psp_len_max
    let bur : NDArr Bool := ⟨counts.shape, counts.data.map (fun c => decide (psp_count_min ≤ Int.ofNat c))⟩
    Except.ok ({ s with grid_buriedness := some bur },
               if return_copy then some bur else none)

/-- The number of points classified vacant. -/
def countTrue (a : NDArr Bool) : Nat := a.data.count true

/-- A small concrete energy grid used in concrete instantiations:
one lattice point, channels "A", "e", "d". -/
def gW : EnergyGrid := ⟨1, 1, 1, ["A", "e", "d"], [[0, 0, 0]]⟩

/-- A second concrete grid with two probe channels "A" and "C". -/
def gW2 : EnergyGrid := ⟨1, 1, 1, ["A", "C", "e", "d"], [[1, 2, 0, 0]]⟩

/-- Success-path equation for `calculate_vacancy_from_energy`: with a
recognized mode and no invalid reference names, the call stores the
vacancy grid and returns a copy iff `return_copy`. -/
theorem calculate_vacancy_eq_ok (s : T2FState) (refs : List String) (c : Val)
    (mode : String) (rc : Bool) (hm : mode ∈ recognizedModes)
    (hv : invalidRefs s.grid refs = []) :
    calculate_vacancy_from_energy s refs c mode rc =
      Except.ok ({ s with grid_vacancy := some (vacancyResult s.grid refs c mode) },
                 if rc then some (vacancyResult s.grid refs c mode) else none) := by
  simp [calculate_vacancy_from_energy, hm, hv]

/-- If every requested name is a known channel, the invalid-name list is
empty. -/
theorem invalidRefs_eq_nil {g : EnergyGrid} {refs : List String}
    (h : ∀ r ∈ refs, r ∈ g.channels) : invalidRefs g refs = [] := by
  simp only [invalidRefs, List.filter_eq_nil_iff]
  intro r hr
  simp [h r hr]

/-- Claim C3: requesting buriedness analysis before any vacancy
classification fails with the missing-precomputed-state error (realized
in the source as the `AttributeError` raised on reading the never-set
attribute `self._grid_vacancy`); no implicit default result is produced. -/
theorem C3_buriedness_before_vacancy_errors (s : T2FState)
    (h : s.grid_vacancy = none) (nd : Nat) (plm : Val) (pcm : Int) (rc : Bool) :
    calculate_buriedness_from_psp_count s nd plm pcm rc =
      Except.error (PyError.attributeError "_grid_vacancy") := by
  unfold calculate_buriedness_from_psp_count
  rw [h]

/-- Witness for C3 at a freshly initialized pipeline state with the
default buriedness parameters. -/
theorem C3_witness :
    calculate_buriedness_from_psp_count (initState gW 1) 7 10 4 false =
      Except.error (PyError.attributeError "_grid_vacancy") :=
  C3_buriedness_before_vacancy_errors (initState gW 1) rfl 7 10 4 false

/-- Claim C4: a classification call naming at least one unknown channel
fails with the unknown-channel `ValueError`, whose message renders the
full list of invalid names (every invalid requested name occurs in the
rendered list), and the call returns no vacancy volume. -/
theorem C4_unknown_channels_error (s : T2FState) (refs : List String) (c : Val)
    (mode : String) (rc : Bool) (hm : mode ∈ recognizedModes)
    (hbad : invalidRefs s.grid refs ≠ []) :
    calculate_vacancy_from_energy s refs c mode rc =
      Except.error (PyError.valueError (unknownChannelMessage (invalidRefs s.grid refs)))
    ∧ ∀ r ∈ refs, r ∉ s.grid.channels → r ∈ invalidRefs s.grid refs := by
  constructor
  · simp [calculate_vacancy_from_energy, hm, hbad]
  · intro r hr hnot
    simp [invalidRefs, List.mem_filter, hr, hnot]

/-- Witness for C4: requesting "X", "A", "Y" against channels
"A", "e", "d" errors and both invalid names are listed. -/
theorem C4_witness :
    calculate_vacancy_from_energy (initState gW 1) ["X", "A", "Y"] 1 "sum" false =
      Except.error (PyError.valueError
        (unknownChannelMessage (invalidRefs gW ["X", "A", "Y"])))
    ∧ "X" ∈ invalidRefs gW ["X", "A", "Y"] ∧ "Y" ∈ invalidRefs gW ["X", "A", "Y"] := by
  have h := C4_unknown_channels_error (initState gW 1) ["X", "A", "Y"] 1 "sum" false
    (by decide) (by decide)
  exact ⟨h.1, h.2 "X" (by decide) (by decide), h.2 "Y" (by decide) (by decide)⟩

/-- Claim C2 (code bug): the claim and the docstring promise a 3-D
boolean vacancy array of shape `(nx, ny, nz)` for every valid call, but
in the single-channel case the code keeps the trailing channel axis:
for the 1x1x1 grid `gW` and the single reference "A" the stored and
returned vacancy array has shape `(1, 1, 1, 1)` (4-D), not `(1, 1, 1)`;
the multi-channel reduction branch does produce the 3-D shape. -/
theorem C2_single_channel_shape_bug :
    calculate_vacancy_from_energy (initState gW 1) ["A"] 1 "sum" true =
      Except.ok ({ grid := gW, spacing_grid_points := 1,
                   grid_vacancy := some ⟨[1, 1, 1, 1], [true]⟩ },
                 some ⟨[1, 1, 1, 1], [true]⟩)
    ∧ ([1, 1, 1, 1] : List Nat) ≠ [gW.nx, gW.ny, gW.nz]
    ∧ ([1, 1, 1, 1] : List Nat).length = 4
    ∧ (vacancyResult gW2 ["A", "C"] 1 "sum").shape = [gW2.nx, gW2.ny, gW2.nz] := by
  refine ⟨by decide, by decide, by decide, by decide⟩

/-- Claim C10: with `return_copy = False` (the default) both methods
return `None` and only store the computed volume internally; with
`return_copy = True` they return a copy whose value is exactly the
stored volume. -/
theorem C10_return_copy_behavior :
    (∀ s refs c mode s2 o, calculate_vacancy_from_energy s refs c mode false =
        Except.ok (s2, o) → o = none)
    ∧ (∀ s refs c mode s2 o, calculate_vacancy_from_energy s refs c mode true =
        Except.ok (s2, o) → o = s2.grid_vacancy ∧ o.isSome = true)
    ∧ (∀ s nd plm pcm s2 o, calculate_buriedness_from_psp_count s nd plm pcm false =
        Except.ok (s2, o) → o = none)
    ∧ (∀ s nd plm pcm s2 o, calculate_buriedness_from_psp_count s nd plm pcm true =
        Except.ok (s2, o) → o = s2.grid_buriedness ∧ o.isSome = true) := by
  refine ⟨?_, ?_, ?_, ?_⟩
  · intro s refs c mode s2 o h
    simp only [calculate_vacancy_from_energy] at h
    split at h
    · split at h
      · simp only [Bool.false_eq_true, if_false, Except.ok.injEq, Prod.mk.injEq] at h
        exact h.2.symm
      · exact absurd h (by simp)
    · exact absurd h (by simp)
  · intro s refs c mode s2 o h
    simp only [calculate_vacancy_from_energy] at h
    split at h
    · split at h
      · simp only [if_true, Except.ok.injEq, Prod.mk.injEq] at h
        obtain ⟨hs, ho⟩ := h
        subst hs
        exact ⟨ho.symm, by rw [← ho]; rfl⟩
      · exact absurd h (by simp)
    · exact absurd h (by simp)
  · intro s nd plm pcm s2 o h
    rcases hv : s.grid_vacancy with _ | vac
    · rw [calculate_buriedness_from_psp_count, hv] at h
      exact absurd h (by simp)
    · rw [calculate_buriedness_from_psp_count, hv] at h
      simp only [Bool.false_eq_true, if_false, Except.ok.injEq, Prod.mk.injEq] at h
      exact h.2.symm
  · intro s nd plm pcm s2 o h
    rcases hv : s.grid_vacancy with _ | vac
    · rw [calculate_buriedness_from_psp_count, hv] at h
      exact absurd h (by simp)
    · rw [calculate_buriedness_from_psp_count, hv] at h
      simp only [if_true, Except.ok.injEq, Prod.mk.injEq] at h
      obtain ⟨hs, ho⟩ := h
      subst hs
      exact ⟨ho.symm, by rw [← ho]; rfl⟩

/-- Witness for C10: a concrete vacancy call with `return_copy = True`
returns exactly the stored volume. -/
theorem C10_witness :
    (some (vacancyResult gW ["A"] 1 "sum")).isSome = true :=
  (C10_return_copy_behavior.2.1 (initState gW 1) ["A"] 1 "sum"
    { grid := gW, spacing_grid_points := 1,
      grid_vacancy := some (vacancyResult gW ["A"] 1 "sum") }
    (some (vacancyResult gW ["A"] 1 "sum"))
    (calculate_vacancy_eq_ok (initState gW 1) ["A"] 1 "sum" true (by decide)
      (by decide))).2

/-- Every reduction the source maps a mode to is the identity on a
one-element channel selection (so the single-channel shortcut agrees
with the reductions value-wise). -/
theorem reducing_op_singleton (mode : String) (v : Val) : reducing_op mode [v] = v := by
  unfold reducing_op npMax npMin npMean npSum
  split_ifs <;> simp

/-- The per-cell selection has as many entries as the channel mask
selects, provided the cell holds one value per channel. -/
theorem selectChannels_length (channels refs : List String) (cell : List Val)
    (h : cell.length = channels.length) :
    (selectChannels channels refs cell).length = maskCount channels refs := by
  induction channels generalizing cell with
  | nil => simp [selectChannels, maskCount]
  | cons ch chs ih =>
    cases cell with
    | nil => simp at h
    | cons v vs =>
      simp only [List.length_cons, Nat.succ.injEq] at h
      by_cases hc : ch ∈ refs
      · simp [selectChannels, maskCount, hc, List.filter] at ih ⊢
        exact ih vs h
      · simp [selectChannels, maskCount, hc, List.filter] at ih ⊢
        exact ih vs h

/-- With distinct channel names, distinct requested names, and every
requested name known, the mask selects exactly one channel per
requested name. -/
theorem maskCount_eq_of_nodup (channels refs : List String)
    (hchan : channels.Nodup) (hrefs : refs.Nodup)
    (hsub : ∀ r ∈ refs, r ∈ channels) :
    maskCount channels refs = refs.length := by
  unfold maskCount
  have h1 : (channels.filter (fun c => decide (c ∈ refs))).Nodup :=
    hchan.filter _
  have h2 : (channels.filter (fun c => decide (c ∈ refs))).toFinset = refs.toFinset := by
    ext a
    simp only [List.mem_toFinset, List.mem_filter, decide_eq_true_eq]
    exact ⟨fun hx => hx.2, fun hx => ⟨hsub a hx, hx⟩⟩
  calc (channels.filter (fun c => decide (c ∈ refs))).length
      = (channels.filter (fun c => decide (c ∈ refs))).toFinset.card :=
        (List.toFinset_card_of_nodup h1).symm
    _ = refs.toFinset.card := by rw [h2]
    _ = refs.length := List.toFinset_card_of_nodup hrefs

/-- Value-level description of `energy_vals`: whether the code takes the
single-channel shortcut or reduces, each lattice point carries the
chosen reduction of its selected channel values. -/
theorem vacancyVals_eq (g : EnergyGrid) (refs : List String) (mode : String)
    (hwf : ∀ cell ∈ g.cells, cell.length = g.channels.length) :
    vacancyVals g refs mode =
      g.cells.map (fun cell => reducing_op mode (selectChannels g.channels refs cell)) := by
  unfold vacancyVals
  split
  case isTrue h1 =>
    rw [List.map_map]
    apply List.map_congr_left
    intro cell hcell
    have hlen := selectChannels_length g.channels refs cell (hwf cell hcell)
    rw [h1] at hlen
    obtain ⟨x, hx⟩ := List.length_eq_one.mp hlen
    simp [Function.comp, hx, reducing_op_singleton]
  case isFalse h1 =>
    rw [List.map_map]
    rfl

/-- Claim C1: for every valid classification call (recognized mode, all
requested names known and distinct, well-formed grid) the stored
vacancy grid marks a lattice point vacant exactly when the chosen
reduction of that point's selected channel values is strictly below
the cutoff, and the selection picks exactly one value per requested
channel name. -/
theorem C1_vacant_iff_reduction_below_cutoff (s : T2FState) (refs : List String)
    (c : Val) (mode : String) (rc : Bool)
    (hwf : ∀ cell ∈ s.grid.cells, cell.length = s.grid.channels.length)
    (hchan : s.grid.channels.Nodup) (hrefs : refs.Nodup)
    (hm : mode ∈ recognizedModes) (hsub : ∀ r ∈ refs, r ∈ s.grid.channels)
    (s2 : T2FState) (o : Option (NDArr Bool)) (vac : NDArr Bool)
    (hcall : calculate_vacancy_from_energy s refs c mode rc = Except.ok (s2, o))
    (hvac : s2.grid_vacancy = some vac) :
    vac.data = s.grid.cells.map
      (fun cell => decide (reducing_op mode (selectChannels s.grid.channels refs cell) < c))
    ∧ ∀ cell ∈ s.grid.cells,
        (selectChannels s.grid.channels refs cell).length = refs.length := by
  rw [calculate_vacancy_eq_ok s refs c mode rc hm (invalidRefs_eq_nil hsub)] at hcall
  simp only [Except.ok.injEq, Prod.mk.injEq] at hcall
  obtain ⟨hs2, -⟩ := hcall
  subst hs2
  simp only at hvac
  have hvac2 : vac = vacancyResult s.grid refs c mode := by
    have : some (vacancyResult s.grid refs c mode) = some vac := hvac
    exact (Option.some.injEq _ _ ▸ this).symm
  subst hvac2
  constructor
  · show (vacancyVals s.grid refs mode).map (fun v => decide (v < c)) = _
    rw [vacancyVals_eq s.grid refs mode hwf, List.map_map]
    rfl
  · intro cell hcell
    rw [selectChannels_length s.grid.channels refs cell (hwf cell hcell)]
    exact maskCount_eq_of_nodup s.grid.channels refs hchan hrefs hsub

/-- Witness for C1: averaging channels "A" and "C" of `gW2` against the
cutoff 3/2 marks the single point occupied (mean 3/2 is not below 3/2). -/
theorem C1_witness :
    (⟨[1, 1, 1], [false]⟩ : NDArr Bool).data = gW2.cells.map
      (fun cell => decide (reducing_op "avg" (selectChannels gW2.channels ["A", "C"] cell) < mkRat 3 2)) :=
  (C1_vacant_iff_reduction_below_cutoff (initState gW2 1) ["A", "C"] (mkRat 3 2)
    "avg" false (by decide) (by decide) (by decide) (by decide) (by decide)
    { grid := gW2, spacing_grid_points := 1, grid_vacancy := some ⟨[1, 1, 1], [false]⟩ }
    none ⟨[1, 1, 1], [false]⟩ (by decide) rfl).1

/-- With distinct channel names, a single known requested name selects
exactly one channel. -/
theorem maskCount_singleton (channels : List String) (r : String)
    (hchan : channels.Nodup) (hr : r ∈ channels) : maskCount channels [r] = 1 :=
  maskCount_eq_of_nodup channels [r] hchan (List.nodup_singleton r)
    (by intro x hx; rw [List.mem_singleton.mp hx]; exact hr)

/-- Counterexample to claim C5 as stated: with exactly one (known)
channel name the reduction argument is not ignored — the unrecognized
value "bogus" makes the call error, while "sum" succeeds, so different
reduction values do not all yield the same non-erroring outcome. -/
theorem C5_counterexample :
    calculate_vacancy_from_energy (initState gW 1) ["A"] 1 "bogus" false =
      Except.error (PyError.valueError "Input argument mode not recognized")
    ∧ calculate_vacancy_from_energy (initState gW 1) ["A"] 1 "sum" false =
      Except.ok ({ grid := gW, spacing_grid_points := 1,
                   grid_vacancy := some ⟨[1, 1, 1, 1], [true]⟩ }, none) := by
  exact ⟨by decide, by decide⟩

/-- Claim C5 as amended: with exactly one (known, distinct-channel)
name, any two recognized reduction modes yield the same outcome, and
the scalar compared against the cutoff at each point is that channel's
value directly (the reduction is never applied); an unrecognized
reduction value, however, errors even in the single-name case. -/
theorem C5_single_name_mode_irrelevant (s : T2FState) (r : String) (c : Val)
    (rc : Bool) (hchan : s.grid.channels.Nodup) (hr : r ∈ s.grid.channels)
    (m1 m2 : String) (h1 : m1 ∈ recognizedModes) (h2 : m2 ∈ recognizedModes) :
    calculate_vacancy_from_energy s [r] c m1 rc =
      calculate_vacancy_from_energy s [r] c m2 rc
    ∧ calculate_vacancy_from_energy s [r] c m1 rc =
        Except.ok ({ s with grid_vacancy := some (vacancyResult s.grid [r] c m1) },
                   if rc then some (vacancyResult s.grid [r] c m1) else none)
    ∧ (vacancyResult s.grid [r] c m1).data = s.grid.cells.map
        (fun cell => decide ((selectChannels s.grid.channels [r] cell).headD 0 < c)) := by
  have hv : invalidRefs s.grid [r] = [] :=
    invalidRefs_eq_nil (by intro x hx; rw [List.mem_singleton.mp hx]; exact hr)
  have hmask := maskCount_singleton s.grid.channels r hchan hr
  have hres : ∀ mode : String, vacancyResult s.grid [r] c mode =
      ⟨[s.grid.nx, s.grid.ny, s.grid.nz, 1],
       ((s.grid.cells.map (selectChannels s.grid.channels [r])).map
         (fun cl => cl.headD 0)).map (fun v => decide (v < c))⟩ := by
    intro mode
    unfold vacancyResult vacancyShape vacancyVals
    rw [if_pos hmask, if_pos hmask]
  refine ⟨?_, ?_, ?_⟩
  · rw [calculate_vacancy_eq_ok s [r] c m1 rc h1 hv,
        calculate_vacancy_eq_ok s [r] c m2 rc h2 hv, hres m1, hres m2]
  · exact calculate_vacancy_eq_ok s [r] c m1 rc h1 hv
  · rw [hres m1]
    simp [List.map_map, Function.comp]

/-- Witness for C5 as amended: on `gW` with the single name "A", modes
"max" and "sum" agree. -/
theorem C5_witness :
    calculate_vacancy_from_energy (initState gW 1) ["A"] 1 "max" false =
      calculate_vacancy_from_energy (initState gW 1) ["A"] 1 "sum" false :=
  (C5_single_name_mode_irrelevant (initState gW 1) "A" 1 false (by decide)
    (by decide) "max" "sum" (by decide) (by decide)).1

/-- Counterexample to claim C6 as stated: the contract token "mean" is
not accepted — with two valid channel names the call errors instead of
applying the mean reduction. -/
theorem C6_counterexample :
    calculate_vacancy_from_energy (initState gW2 1) ["A", "C"] 1 "mean" false =
      Except.error (PyError.valueError "Input argument mode not recognized") := by
  decide

/-- Claim C6 as amended: the four mode tokens the code accepts are
"max", "min", "avg" and "sum" (the mean reduction is spelled "avg");
with multiple distinct valid channel names each of them is accepted
without error and applies the corresponding elementwise reduction
before the cutoff comparison. -/
theorem C6_recognized_modes_apply_reduction (s : T2FState) (refs : List String)
    (c : Val) (rc : Bool)
    (hchan : s.grid.channels.Nodup) (hrefs : refs.Nodup)
    (hsub : ∀ r ∈ refs, r ∈ s.grid.channels) (hlen : 2 ≤ refs.length) :
    (∀ mode ∈ recognizedModes,
      calculate_vacancy_from_energy s refs c mode rc =
        Except.ok ({ s with
              grid_vacancy := some ⟨[s.grid.nx, s.grid.ny, s.grid.nz],
                s.grid.cells.map (fun cell =>
                  decide (reducing_op mode (selectChannels s.grid.channels refs cell) < c))⟩ },
          if rc then some
            ⟨[s.grid.nx, s.grid.ny, s.grid.nz],
             s.grid.cells.map (fun cell =>
               decide (reducing_op mode (selectChannels s.grid.channels refs cell) < c))⟩
          else none))
    ∧ reducing_op "max" = npMax ∧ reducing_op "min" = npMin
    ∧ reducing_op "avg" = npMean ∧ reducing_op "sum" = npSum := by
  have hmask : maskCount s.grid.channels refs ≠ 1 := by
    rw [maskCount_eq_of_nodup s.grid.channels refs hchan hrefs hsub]
    omega
  refine ⟨?_, by simp [reducing_op], by simp [reducing_op], by simp [reducing_op],
    by simp [reducing_op]⟩
  intro mode hmode
  rw [calculate_vacancy_eq_ok s refs c mode rc hmode (invalidRefs_eq_nil hsub)]
  have hres : vacancyResult s.grid refs c mode =
      ⟨[s.grid.nx, s.grid.ny, s.grid.nz],
       s.grid.cells.map (fun cell =>
         decide (reducing_op mode (selectChannels s.grid.channels refs cell) < c))⟩ := by
    unfold vacancyResult vacancyShape vacancyVals
    rw [if_neg hmask, if_neg hmask, List.map_map]
    simp [Function.comp]
  rw [hres]

/-- Witness for C6 as amended: on `gW2` with names "A" and "C" the mode
"avg" is accepted and stores the mean-reduced thresholding. -/
theorem C6_witness :
    calculate_vacancy_from_energy (initState gW2 1) ["A", "C"] (mkRat 3 2) "avg" false =
      Except.ok ({ grid := gW2,
                   spacing_grid_points := 1,
                   grid_vacancy := some ⟨[gW2.nx, gW2.ny, gW2.nz],
                     gW2.cells.map (fun cell =>
                       decide (reducing_op "avg"
                         (selectChannels gW2.channels ["A", "C"] cell) < mkRat 3 2))⟩ },
        none) :=
  (C6_recognized_modes_apply_reduction (initState gW2 1) ["A", "C"] (mkRat 3 2)
    false (by decide) (by decide) (by decide) (by decide)).1 "avg" (by decide)

/-- Counting the vacant points of a thresholded value list is monotone
in the cutoff. -/
theorem countTrue_threshold_mono (vals : List Val) (sh1 sh2 : List Nat)
    {c1 c2 : Val} (hc : c1 ≤ c2) :
    countTrue ⟨sh1, vals.map (fun v => decide (v < c1))⟩ ≤
      countTrue ⟨sh2, vals.map (fun v => decide (v < c2))⟩ := by
  unfold countTrue
  simp only [List.count, List.countP_map]
  apply List.countP_mono_left
  intro v _ hv
  simp only [Function.comp, beq_iff_eq, decide_eq_true_eq] at hv ⊢
  exact lt_of_lt_of_le hv hc

/-- Claim C8: for a fixed grid, fixed channel selection and fixed
reduction mode, two successful classification calls with cutoffs
`c1 ≤ c2` satisfy: the number of points classified vacant at `c2` is at
least the number classified vacant at `c1`. -/
theorem C8_vacant_count_monotone_in_cutoff (s : T2FState) (refs : List String)
    (mode : String) (c1 c2 : Val) (rc1 rc2 : Bool)
    (hm : mode ∈ recognizedModes) (hv : invalidRefs s.grid refs = [])
    (hc : c1 ≤ c2) (s1 s2 : T2FState) (o1 o2 : Option (NDArr Bool))
    (v1 v2 : NDArr Bool)
    (h1 : calculate_vacancy_from_energy s refs c1 mode rc1 = Except.ok (s1, o1))
    (h2 : calculate_vacancy_from_energy s refs c2 mode rc2 = Except.ok (s2, o2))
    (hv1 : s1.grid_vacancy = some v1) (hv2 : s2.grid_vacancy = some v2) :
    countTrue v1 ≤ countTrue v2 := by
  rw [calculate_vacancy_eq_ok s refs c1 mode rc1 hm hv] at h1
  rw [calculate_vacancy_eq_ok s refs c2 mode rc2 hm hv] at h2
  simp only [Except.ok.injEq, Prod.mk.injEq] at h1 h2
  obtain ⟨hs1, -⟩ := h1
  obtain ⟨hs2, -⟩ := h2
  subst hs1
  subst hs2
  simp only [Option.some.injEq] at hv1 hv2
  subst hv1
  subst hv2
  exact countTrue_threshold_mono (vacancyVals s.grid refs mode) _ _ hc

/-- Witness for C8: on `gW2` with sum reduction the vacant count grows
from 0 (cutoff 1) to 1 (cutoff 4). -/
theorem C8_witness :
    countTrue ⟨[1, 1, 1], [false]⟩ ≤ countTrue ⟨[1, 1, 1], [true]⟩ :=
  C8_vacant_count_monotone_in_cutoff (initState gW2 1) ["A", "C"] "sum" 1 4
    false false (by decide) (by decide) (by decide)
    { grid := gW2, spacing_grid_points := 1, grid_vacancy := some ⟨[1, 1, 1], [false]⟩ }
    { grid := gW2, spacing_grid_points := 1, grid_vacancy := some ⟨[1, 1, 1], [true]⟩ }
    none none ⟨[1, 1, 1], [false]⟩ ⟨[1, 1, 1], [true]⟩
    (by decide) (by decide) rfl rfl

/-- A 1x1x1 state whose single lattice point is occupied (vacancy
`false`), with a well-formed 3-D vacancy tensor. -/
def stOcc : T2FState :=
  { grid := gW, spacing_grid_points := 1, grid_vacancy := some ⟨[1, 1, 1], [false]⟩ }

/-- Counterexample to claim C7 as stated: buriedness analysis on `stOcc`
with `min_events = 0` marks the single point buried (`true`) although
that point is not vacant (`false` in the vacancy volume), so
`BuriednessVolume[p] = true` does not imply `VacancyVolume[p] = true`
and non-vacant points do not always get `false`. -/
theorem C7_counterexample :
    calculate_buriedness_from_psp_count stOcc 7 10 0 false =
      Except.ok ({ stOcc with grid_buriedness := some ⟨[1, 1, 1], [true]⟩ }, none)
    ∧ (⟨[1, 1, 1], [true]⟩ : NDArr Bool).data.getD 0 false = true
    ∧ (stOcc.grid_vacancy.getD ⟨[], []⟩).data.getD 0 false = false := by
  refine ⟨by decide, by decide, by decide⟩

/-- Claim C7 as amended: the buriedness volume is the PSP-count volume
thresholded uniformly at every lattice point — `buried[t] = true` iff
`min_events ≤ count[t]` — with no restriction to vacant points, so
containment in the vacancy volume is not guaranteed (with
`min_events = 0` every point is marked buried, vacant or not). -/
theorem C7_buriedness_is_uniform_threshold (s : T2FState) (vac : NDArr Bool)
    (hvac : s.grid_vacancy = some vac) (nd : Nat) (plm : Val) (pcm : Int)
    (rc : Bool) (s2 : T2FState) (o : Option (NDArr Bool)) (bur : NDArr Bool)
    (hcall : calculate_buriedness_from_psp_count s nd plm pcm rc = Except.ok (s2, o))
    (hbur : s2.grid_buriedness = some bur) :
    ∀ t, t < bur.data.length →
      (bur.data.getD t false = true ↔
        pcm ≤ Int.ofNat ((count_psp_events_from_vacancy_tensor vac s.spacing_grid_points nd plm).data.getD t 0)) := by
  rw [calculate_buriedness_from_psp_count, hvac] at hcall
  simp only [Except.ok.injEq, Prod.mk.injEq] at hcall
  obtain ⟨hs2, -⟩ := hcall
  subst hs2
  simp only [Option.some.injEq] at hbur
  subst hbur
  intro t ht
  simp only [List.length_map] at ht
  rw [List.getD_eq_getElem _ _ (by simpa using ht), List.getD_eq_getElem _ _ ht,
    List.getElem_map]
  simp

/-- Witness for C7 as amended: on `stOcc` with `min_events = 0` the
single point satisfies the uniform-threshold characterization. -/
theorem C7_witness :
    (⟨[1, 1, 1], [true]⟩ : NDArr Bool).data.getD 0 false = true ↔
      (0 : Int) ≤ Int.ofNat ((count_psp_events_from_vacancy_tensor ⟨[1, 1, 1], [false]⟩ 1 7 10).data.getD 0 0) :=
  C7_buriedness_is_uniform_threshold stOcc ⟨[1, 1, 1], [false]⟩ rfl 7 10 0 false
    { grid := gW, spacing_grid_points := 1, grid_vacancy := some ⟨[1, 1, 1], [false]⟩,
      grid_buriedness := some ⟨[1, 1, 1], [true]⟩ }
    none ⟨[1, 1, 1], [true]⟩ (by decide) rfl 0 (by decide)

/-- Allocation-level view of the pipeline for the aliasing claim: every
numpy array that escapes (the array bound to `self._grid_vacancy` or
`self._grid_buriedness`, and the `.copy()` handed to the caller) is a
fresh cell appended to a store of arrays, and the object state holds
indices into that store. -/
abbrev Store := List (NDArr Bool)

/-- The array references held by the object: indices into the store. -/
structure T2FRefs where
  vacancyRef : Option Nat := none
  buriednessRef : Option Nat := none
deriving Repr, DecidableEq

/-- Allocation-level model of `calculate_vacancy_from_energy`:
`energy_vals < energy_cutoff` allocates the array stored as
`self._grid_vacancy`, and `.copy()` allocates a second array with the
same value that is returned to the caller. -/
def classifyAlloc (store : Store) (st : T2FRefs) (g : EnergyGrid)
    (energy_refs : List String) (energy_cutoff : Val) (mode : String)
    (return_copy : Bool) : Except PyError (Store × T2FRefs × Option Nat) :=
  if mode ∈ recognizedModes then
    if invalidRefs g energy_refs = [] then
      let vac := vacancyResult g energy_refs energy_cutoff mode
      let store1 := store ++ [vac]
      let st1 := { st with vacancyRef := some store.length }
      if return_copy then Except.ok (store1 ++ [vac], st1, some store1.length)
      else Except.ok (store1, st1, none)
    else Except.error (PyError.valueError (unknownChannelMessage (invalidRefs g energy_refs)))
  else Except.error (PyError.valueError "Input argument mode not recognized")

/-- Allocation-level model of `calculate_buriedness_from_psp_count`:
the thresholded count array is a fresh allocation stored as
`self._grid_buriedness`, and `.copy()` allocates the returned array. -/
def analyzeAlloc (store : Store) (st : T2FRefs) (spacing : Val)
    (num_directions : Nat) (psp_len_max : Val) (psp_count_min : Int)
    (return_copy : Bool) : Except PyError (Store × T2FRefs × Option Nat) :=
  match st.vacancyRef with
  | none => Except.error (PyError.attributeError "_grid_vacancy")
  | some r =>
    let vac := store.getD r ⟨[], []⟩
    let counts := count_psp_events_from_vacancy_tensor vac spacing num_directions psp_len_max
    let bur : NDArr Bool := ⟨counts.shape, counts.data.map (fun c => decide (psp_count_min ≤ Int.ofNat c))⟩
    let store1 := store ++ [bur]
    let st1 := { st with buriednessRef := some store.length }
    if return_copy then Except.ok (store1 ++ [bur], st1, some store1.length)
    else Except.ok (store1, st1, none)

/-- Claim C9: both pipeline operations only append to the array store —
every array that existed before a call is bit-identical after it (so
re-running classification with different arguments is never observable
through previously returned results, and no operation mutates a
previously produced volume in place) — and when a copy is requested the
returned reference is a fresh cell distinct from the internally stored
one, so mutations of the returned array are not observable through the
internal state. -/
theorem C9_returned_copies_are_detached :
    (∀ store st g refs c mode rc store2 st2 o,
      classifyAlloc store st g refs c mode rc = Except.ok (store2, st2, o) →
        (∀ i d, i < store.length → store2.getD i d = store.getD i d)
        ∧ ∀ n, o = some n → st2.vacancyRef ≠ some n ∧ store.length ≤ n)
    ∧ (∀ store st sp nd plm pcm rc store2 st2 o,
      analyzeAlloc store st sp nd plm pcm rc = Except.ok (store2, st2, o) →
        (∀ i d, i < store.length → store2.getD i d = store.getD i d)
        ∧ ∀ n, o = some n → st2.buriednessRef ≠ some n ∧ store.length ≤ n) := by
  constructor
  · intro store st g refs c mode rc store2 st2 o h
    simp only [classifyAlloc] at h
    split at h
    · split at h
      · split at h
        · simp only [Except.ok.injEq, Prod.mk.injEq] at h
          obtain ⟨hst, hrefs2, ho⟩ := h
          subst hst
          subst hrefs2
          constructor
          · intro i d hi
            rw [List.append_assoc, List.getD_append _ _ _ _ hi]
          · intro n hn
            rw [← ho] at hn
            simp only [Option.some.injEq] at hn
            subst hn
            refine ⟨?_, by simp [List.length_append]⟩
            simp only [ne_eq, Option.some.injEq]
            simp [List.length_append]
        · simp only [Except.ok.injEq, Prod.mk.injEq] at h
          obtain ⟨hst, hrefs2, ho⟩ := h
          subst hst
          subst hrefs2
          constructor
          · intro i d hi
            rw [List.getD_append _ _ _ _ hi]
          · intro n hn
            rw [← ho] at hn
            simp at hn
      · exact absurd h (by simp)
    · exact absurd h (by simp)
  · intro store st sp nd plm pcm rc store2 st2 o h
    rcases hr : st.vacancyRef with _ | r
    · rw [analyzeAlloc, hr] at h
      exact absurd h (by simp)
    · cases rc
      · rw [analyzeAlloc, hr] at h
        simp only [Bool.false_eq_true, if_false, Except.ok.injEq, Prod.mk.injEq] at h
        obtain ⟨hst, hrefs2, ho⟩ := h
        subst hst
        subst hrefs2
        constructor
        · intro i d hi
          rw [List.getD_append _ _ _ _ hi]
        · intro n hn
          rw [← ho] at hn
          simp at hn
      · rw [analyzeAlloc, hr] at h
        simp only [if_true, Except.ok.injEq, Prod.mk.injEq] at h
        obtain ⟨hst, hrefs2, ho⟩ := h
        subst hst
        subst hrefs2
        constructor
        · intro i d hi
          rw [List.append_assoc, List.getD_append _ _ _ _ hi]
        · intro n hn
          rw [← ho] at hn
          simp only [Option.some.injEq] at hn
          subst hn
          refine ⟨?_, by simp [List.length_append]⟩
          simp only [ne_eq, Option.some.injEq]
          simp [List.length_append]

/-- Witness for C9: a concrete classification with `return_copy = True`
starting from an empty store returns cell 1 while the internal vacancy
reference is cell 0. -/
theorem C9_witness :
    ({ vacancyRef := some 0, buriednessRef := none } : T2FRefs).vacancyRef ≠ some 1 :=
  (((C9_returned_copies_are_detached).1 [] {} gW ["A"] 1 "sum" true
    [vacancyResult gW ["A"] 1 "sum", vacancyResult gW ["A"] 1 "sum"]
    { vacancyRef := some 0, buriednessRef := none } (some 1)
    (by decide)).2 1 rfl).1

end T2F

